import Mathlib

/-!
Verification of the configuration loader and network client of the
nextJs-enterprise-scaffold repository.

The embedding covers:
* the environment schema declared in the repository (`src/unnamed/part_002`,
  the `createEnv` call): five declared variables, their defaults and
  constraints, `emptyStringAsUndefined`, `skipValidation`;
* `getBaseURL` and the two axios interceptors of `src/src/lib/api-client.ts`.

The `createEnv` implementation itself (package `@t3-oss/env-nextjs`) and the
`zod` validators are dependencies whose code is not in the repository; their
behaviour is modelled from the specification's description of the loader
(defaults, empty-string handling, skip behaviour, all-fields error reporting),
instantiated with the schema that IS in the repository.
-/

/-- A raw process environment: a total lookup from variable names to an
optional string value, mirroring `process.env`. -/
def RawEnv : Type := String → Option String

/-- The five declared variable names of the schema in `part_002`
(server group: NODE_ENV, DATABASE_URL, API_SECRET_KEY; client group:
NEXT_PUBLIC_API_URL, NEXT_PUBLIC_APP_NAME). -/
def declaredNames : List String :=
  ["NODE_ENV", "DATABASE_URL", "API_SECRET_KEY",
   "NEXT_PUBLIC_API_URL", "NEXT_PUBLIC_APP_NAME"]

/-- The `runtimeEnv` mapping of the `createEnv` call: the loader looks up
exactly the five declared names in the raw environment
(`part_002` lines 66-74). -/
structure RuntimeEnv where
  NODE_ENV : Option String
  DATABASE_URL : Option String
  API_SECRET_KEY : Option String
  NEXT_PUBLIC_API_URL : Option String
  NEXT_PUBLIC_APP_NAME : Option String
deriving DecidableEq, Repr

/-- Build the `runtimeEnv` object from the raw process environment, as the
source does field by field with `process.env.<NAME>`. -/
def runtimeEnv (raw : RawEnv) : RuntimeEnv :=
  { NODE_ENV := raw "NODE_ENV"
    DATABASE_URL := raw "DATABASE_URL"
    API_SECRET_KEY := raw "API_SECRET_KEY"
    NEXT_PUBLIC_API_URL := raw "NEXT_PUBLIC_API_URL"
    NEXT_PUBLIC_APP_NAME := raw "NEXT_PUBLIC_APP_NAME" }

/-- Modelled from the spec: the `emptyStringAsUndefined: true` option of
`createEnv` (whose implementation is not in the repository) makes an
empty-string raw value indistinguishable from an absent one before
validation. -/
def emptyAsUndef : Option String → Option String
  | some "" => none
  | v => v

/-- The `z.enum(["development", "test", "production"])` check of the
NODE_ENV rule in `part_002`. -/
def validEnum (v : String) : Bool :=
  v = "development" || v = "test" || v = "production"

/-- Split a character list at the first occurrence of "://" into the scheme
part and the remainder. -/
def splitScheme : List Char → Option (List Char × List Char)
  | [] => none
  | ':' :: '/' :: '/' :: rest => some ([], rest)
  | c :: cs => (splitScheme cs).map (fun p => (c :: p.1, p.2))

/-- Modelled from the spec: `z.string().url()` comes from the `zod`
dependency, which is not in the repository; the spec only requires a
"well-formed URL" check. We model well-formedness as a non-empty scheme
followed by the literal "://" and a non-empty remainder. The empty string is
not a well-formed URL. -/
def isValidUrl (s : String) : Bool :=
  match splitScheme s.toList with
  | some (scheme, rest) => !scheme.isEmpty && !rest.isEmpty
  | none => false

/-- The validated configuration produced by the loader: NODE_ENV and
NEXT_PUBLIC_APP_NAME always carry a value (they have defaults), the other
three declared variables are optional. -/
structure ResolvedConfig where
  NODE_ENV : String
  DATABASE_URL : Option String
  API_SECRET_KEY : Option String
  NEXT_PUBLIC_API_URL : Option String
  NEXT_PUBLIC_APP_NAME : String
deriving DecidableEq, Repr

/-- NODE_ENV rule violated: present (after empty-string handling) but not one
of the three enum literals. -/
def nodeEnvViolated (raw : RawEnv) : Bool :=
  match emptyAsUndef (runtimeEnv raw).NODE_ENV with
  | some v => !validEnum v
  | none => false

/-- DATABASE_URL rule violated: present but not a well-formed URL. -/
def dbUrlViolated (raw : RawEnv) : Bool :=
  match emptyAsUndef (runtimeEnv raw).DATABASE_URL with
  | some v => !isValidUrl v
  | none => false

/-- API_SECRET_KEY rule violated: present but shorter than one character. -/
def secretViolated (raw : RawEnv) : Bool :=
  match emptyAsUndef (runtimeEnv raw).API_SECRET_KEY with
  | some v => v.length < 1
  | none => false

/-- NEXT_PUBLIC_API_URL rule violated: present but not a well-formed URL. -/
def apiUrlViolated (raw : RawEnv) : Bool :=
  match emptyAsUndef (runtimeEnv raw).NEXT_PUBLIC_API_URL with
  | some v => !isValidUrl v
  | none => false

/-- The list of violated field names, in schema declaration order. -/
def violations (raw : RawEnv) : List String :=
  (if nodeEnvViolated raw then ["NODE_ENV"] else []) ++
  (if dbUrlViolated raw then ["DATABASE_URL"] else []) ++
  (if secretViolated raw then ["API_SECRET_KEY"] else []) ++
  (if apiUrlViolated raw then ["NEXT_PUBLIC_API_URL"] else [])

/-- The best-effort configuration: raw values passed through (after
empty-string handling), defaults applied where absent. -/
def resolve (raw : RawEnv) : ResolvedConfig :=
  let r := runtimeEnv raw
  { NODE_ENV := (emptyAsUndef r.NODE_ENV).getD "development"
    DATABASE_URL := emptyAsUndef r.DATABASE_URL
    API_SECRET_KEY := emptyAsUndef r.API_SECRET_KEY
    NEXT_PUBLIC_API_URL := emptyAsUndef r.NEXT_PUBLIC_API_URL
    NEXT_PUBLIC_APP_NAME := (emptyAsUndef r.NEXT_PUBLIC_APP_NAME).getD "NES App" }

/-- Modelled from the spec: the loader `createEnv` of `@t3-oss/env-nextjs` is
not in the repository; per the spec's contract
`load(rawEnv, skipValidation) -> ResolvedConfig` it validates the five
declared rules, reports every violated field in one
`ConfigValidationError`, applies defaults, and when `skipValidation`
is true returns best-effort values without ever failing. The error case
carries the list of violated field names. -/
def load (raw : RawEnv) (skipValidation : Bool) :
    Except (List String) ResolvedConfig :=
  if skipValidation then
    Except.ok (resolve raw)
  else if violations raw = [] then
    Except.ok (resolve raw)
  else
    Except.error (violations raw)

/-- JavaScript truthiness of an optional string: `undefined` and the empty
string are falsy, every other string is truthy. Used by
`if (env.NEXT_PUBLIC_API_URL)` and `if (token)` in `api-client.ts`. -/
def truthy : Option String → Bool
  | some s => s ≠ ""
  | none => false

/-- The error message thrown by `getBaseURL` in production
(`api-client.ts` lines 34-37). -/
def prodErrorMsg : String :=
  "NEXT_PUBLIC_API_URL is required in production. Add it to your environment variables."

/-- `getBaseURL` of `api-client.ts` (lines 28-42): use the resolved
`env.NEXT_PUBLIC_API_URL` when truthy; otherwise throw when the RAW
`process.env.NODE_ENV` is exactly "production"; otherwise fall back to
the hardcoded localhost URL. The raw environment is passed separately
because the source reads `process.env.NODE_ENV` directly, not the
validated configuration. -/
def getBaseURL (env : ResolvedConfig) (raw : RawEnv) : Except String String :=
  if truthy env.NEXT_PUBLIC_API_URL then
    Except.ok (env.NEXT_PUBLIC_API_URL.getD "")
  else if raw "NODE_ENV" = some "production" then
    Except.error prodErrorMsg
  else
    Except.ok "http://localhost:3000/api"

/-- An outgoing request configuration (the parts of axios's
`InternalAxiosRequestConfig` the interceptor can observe or touch). -/
structure RequestConfig where
  url : String
  method : String
  body : Option String
  timeout : Nat
  headers : List (String × String)
deriving DecidableEq, Repr

/-- Read a header by name: first entry with that name, as axios's header
map lookup. -/
def getHeader (hs : List (String × String)) (k : String) : Option String :=
  (hs.find? (fun p => p.1 = k)).map Prod.snd

/-- Assign a header: overwrite existing entries with that name, or append
when absent, as `config.headers.Authorization = ...` does. -/
def setHeader (hs : List (String × String)) (k v : String) :
    List (String × String) :=
  if hs.any (fun p => p.1 = k) then
    hs.map (fun p => if p.1 = k then (k, v) else p)
  else
    hs ++ [(k, v)]

/-- The request interceptor of `api-client.ts` (lines 60-77):
`windowAvailable` models `typeof window !== "undefined"`, `store` models
`localStorage.getItem`. When a truthy token is stored under "auth_token",
set the Authorization header to "Bearer <token>"; otherwise return the
configuration unchanged. -/
def requestInterceptor (windowAvailable : Bool) (store : String → Option String)
    (config : RequestConfig) : RequestConfig :=
  if windowAvailable then
    match store "auth_token" with
    | some token =>
        if token ≠ "" then
          { config with
              headers := setHeader config.headers "Authorization" ("Bearer " ++ token) }
        else config
    | none => config
  else config

/-- The diagnostic category logged by the response interceptor's switch
(`api-client.ts` lines 100-121). -/
inductive LogCategory where
  | unauthorized
  | forbidden
  | notFound
  | serverError
  | generic (status : Option Nat)
deriving DecidableEq, Repr

/-- An axios error as observed by the response interceptor:
`error.response?.status`, `error.config?.url`, `error.message`. -/
structure AxiosErrorModel where
  status : Option Nat
  url : Option String
  message : String
deriving DecidableEq, Repr

/-- The status switch of the response interceptor. -/
def classifyStatus (status : Option Nat) : LogCategory :=
  match status with
  | some 401 => LogCategory.unauthorized
  | some 403 => LogCategory.forbidden
  | some 404 => LogCategory.notFound
  | some 500 => LogCategory.serverError
  | s => LogCategory.generic s

/-- The response error interceptor of `api-client.ts` (lines 91-124):
logs a categorized line, then returns `Promise.reject(error)` with the very
same error. The result pairs the logged category with the rejection
(`Except.error`, never `Except.ok`: the failure is never swallowed). -/
def responseErrorInterceptor (e : AxiosErrorModel) :
    LogCategory × Except AxiosErrorModel Unit :=
  (classifyStatus e.status, Except.error e)

/-- The response success interceptor (`(response) => response`). -/
def responseSuccessInterceptor {α : Type} (response : α) : α := response

/-! ### Helper lemmas -/

theorem getHeader_overwrite (k v : String) :
    ∀ hs : List (String × String), hs.any (fun p => p.1 = k) = true →
      getHeader (hs.map (fun p => if p.1 = k then (k, v) else p)) k = some v := by
  intro hs
  induction hs with
  | nil => intro h; simp at h
  | cons p t ih =>
    intro h
    by_cases hp : p.1 = k
    · unfold getHeader
      rw [List.map_cons, if_pos hp, List.find?_cons_of_pos _ (by simp)]
      rfl
    · simp only [List.any_cons, Bool.or_eq_true, decide_eq_true_eq] at h
      rcases h with h | h
      · exact absurd h hp
      · have hrec := ih h
        unfold getHeader at hrec ⊢
        rw [List.map_cons, if_neg hp, List.find?_cons_of_neg _ (by simp [hp])]
        exact hrec

theorem getHeader_append_new (k v : String) :
    ∀ hs : List (String × String), hs.any (fun p => p.1 = k) = false →
      getHeader (hs ++ [(k, v)]) k = some v := by
  intro hs
  induction hs with
  | nil =>
    intro _
    unfold getHeader
    rw [List.nil_append, List.find?_cons_of_pos _ (by simp)]
    rfl
  | cons p t ih =>
    intro h
    simp only [List.any_cons, Bool.or_eq_false_iff, decide_eq_false_iff_not] at h
    have hrec := ih (by simp [h.2])
    unfold getHeader at hrec ⊢
    rw [List.cons_append, List.find?_cons_of_neg _ (by simp [h.1])]
    exact hrec

theorem getHeader_setHeader_self (hs : List (String × String)) (k v : String) :
    getHeader (setHeader hs k v) k = some v := by
  unfold setHeader
  by_cases h : hs.any (fun p => p.1 = k)
  · rw [if_pos h]; exact getHeader_overwrite k v hs h
  · rw [if_neg h]
    exact getHeader_append_new k v hs (Bool.eq_false_iff.mpr h)

theorem getHeader_map_ne (k v k2 : String) (hk : k2 ≠ k) :
    ∀ hs : List (String × String),
      getHeader (hs.map (fun p => if p.1 = k then (k, v) else p)) k2 =
        getHeader hs k2 := by
  intro hs
  induction hs with
  | nil => rfl
  | cons p t ih =>
    by_cases hp : p.1 = k
    · have hne : ¬(k = k2) := fun h => hk h.symm
      have hne2 : ¬(p.1 = k2) := by rw [hp]; exact hne
      unfold getHeader at ih ⊢
      rw [List.map_cons, if_pos hp, List.find?_cons_of_neg _ (by simp [hne]),
        List.find?_cons_of_neg _ (by simp [hne2])]
      exact ih
    · unfold getHeader at ih ⊢
      rw [List.map_cons, if_neg hp]
      by_cases hp2 : p.1 = k2
      · rw [List.find?_cons_of_pos _ (by simp [hp2]),
          List.find?_cons_of_pos _ (by simp [hp2])]
      · rw [List.find?_cons_of_neg _ (by simp [hp2]),
          List.find?_cons_of_neg _ (by simp [hp2])]
        exact ih

theorem getHeader_append_ne (k v k2 : String) (hk : k2 ≠ k) :
    ∀ hs : List (String × String),
      getHeader (hs ++ [(k, v)]) k2 = getHeader hs k2 := by
  intro hs
  induction hs with
  | nil =>
    have hne : ¬(k = k2) := fun h => hk h.symm
    unfold getHeader
    rw [List.nil_append, List.find?_cons_of_neg _ (by simp [hne])]
  | cons p t ih =>
    unfold getHeader at ih ⊢
    rw [List.cons_append]
    by_cases hp : p.1 = k2
    · rw [List.find?_cons_of_pos _ (by simp [hp]),
        List.find?_cons_of_pos _ (by simp [hp])]
    · rw [List.find?_cons_of_neg _ (by simp [hp]),
        List.find?_cons_of_neg _ (by simp [hp])]
      exact ih

theorem getHeader_setHeader_ne (hs : List (String × String)) (k v k2 : String)
    (hk : k2 ≠ k) : getHeader (setHeader hs k v) k2 = getHeader hs k2 := by
  unfold setHeader
  by_cases h : hs.any (fun p => p.1 = k)
  · rw [if_pos h]; exact getHeader_map_ne k v k2 hk hs
  · rw [if_neg h]; exact getHeader_append_ne k v k2 hk hs

theorem load_congr (raw1 raw2 : RawEnv) (skip : Bool)
    (h : ∀ k ∈ declaredNames, emptyAsUndef (raw1 k) = emptyAsUndef (raw2 k)) :
    load raw1 skip = load raw2 skip := by
  have h1 := h "NODE_ENV" (by simp [declaredNames])
  have h2 := h "DATABASE_URL" (by simp [declaredNames])
  have h3 := h "API_SECRET_KEY" (by simp [declaredNames])
  have h4 := h "NEXT_PUBLIC_API_URL" (by simp [declaredNames])
  have h5 := h "NEXT_PUBLIC_APP_NAME" (by simp [declaredNames])
  simp only [load, violations, resolve, runtimeEnv, nodeEnvViolated,
    dbUrlViolated, secretViolated, apiUrlViolated, h1, h2, h3, h4, h5]

/-! ### Concrete fixtures -/

def rawEmpty : RawEnv := fun _ => none

def rawProd : RawEnv := fun k => if k = "NODE_ENV" then some "production" else none

def rawTest : RawEnv := fun k => if k = "NODE_ENV" then some "test" else none

def rawExtra : RawEnv :=
  fun k =>
    if k = "NODE_ENV" then some "test"
    else if k = "SOME_UNKNOWN_FLAG" then some "1" else none

def rawBlankApi : RawEnv :=
  fun k => if k = "NEXT_PUBLIC_API_URL" then some "" else none

def rawBad : RawEnv :=
  fun k =>
    if k = "NODE_ENV" then some "staging"
    else if k = "DATABASE_URL" then some "not-a-url" else none

def cfgWithUrl : ResolvedConfig :=
  { NODE_ENV := "development", DATABASE_URL := none, API_SECRET_KEY := none,
    NEXT_PUBLIC_API_URL := some "https://api.example.com",
    NEXT_PUBLIC_APP_NAME := "NES App" }

def cfgNoUrl : ResolvedConfig :=
  { NODE_ENV := "development", DATABASE_URL := none, API_SECRET_KEY := none,
    NEXT_PUBLIC_API_URL := none, NEXT_PUBLIC_APP_NAME := "NES App" }

def cfgProdResolved : ResolvedConfig :=
  { NODE_ENV := "production", DATABASE_URL := none, API_SECRET_KEY := none,
    NEXT_PUBLIC_API_URL := none, NEXT_PUBLIC_APP_NAME := "NES App" }

def store0 : String → Option String :=
  fun k => if k = "auth_token" then some "abc123" else none

def storeEmpty : String → Option String := fun _ => none

def cfg0 : RequestConfig :=
  { url := "/users", method := "get", body := none, timeout := 10000,
    headers := [("Content-Type", "application/json")] }

def err404 : AxiosErrorModel :=
  { status := some 404, url := some "/users/9",
    message := "Request failed with status code 404" }

/-! ### Claim theorems -/

/-- C1: Base-URL resolution at Network Client construction follows exactly
three steps: when the resolved config's NEXT_PUBLIC_API_URL is present and
non-empty it is used as the base URL; otherwise, when the runtime mode is
production, construction fails with the explicit error; otherwise the
hardcoded fallback "http://localhost:3000/api" is used. -/
theorem c1_base_url_resolution (env : ResolvedConfig) (raw : RawEnv) :
    (∀ u, env.NEXT_PUBLIC_API_URL = some u → u ≠ "" →
      getBaseURL env raw = Except.ok u) ∧
    ((env.NEXT_PUBLIC_API_URL = none ∨ env.NEXT_PUBLIC_API_URL = some "") →
      (raw "NODE_ENV" = some "production" →
        getBaseURL env raw = Except.error prodErrorMsg) ∧
      (raw "NODE_ENV" ≠ some "production" →
        getBaseURL env raw = Except.ok "http://localhost:3000/api")) := by
  constructor
  · intro u hu hne
    simp [getBaseURL, truthy, hu, hne]
  · intro habs
    constructor <;> intro hprod <;>
      rcases habs with h | h <;> simp [getBaseURL, truthy, h, hprod]

theorem c1_witness :
    getBaseURL cfgWithUrl rawEmpty = Except.ok "https://api.example.com" ∧
    getBaseURL cfgNoUrl rawProd = Except.error prodErrorMsg ∧
    getBaseURL cfgNoUrl rawEmpty = Except.ok "http://localhost:3000/api" :=
  ⟨(c1_base_url_resolution cfgWithUrl rawEmpty).1 "https://api.example.com"
      rfl (by decide),
   ((c1_base_url_resolution cfgNoUrl rawProd).2 (Or.inl rfl)).1 (by decide),
   ((c1_base_url_resolution cfgNoUrl rawEmpty).2 (Or.inl rfl)).2 (by decide)⟩

/-- C10: getBaseURL detects production mode by exact string comparison of the
RAW process NODE_ENV with "production", not the validated/defaulted
configuration value: for every resolved config with the public API URL
absent (whatever its own NODE_ENV field says), construction fails exactly
when raw NODE_ENV equals "production", and succeeds with the localhost
fallback for every other raw NODE_ENV (unset, "test", differently cased). -/
theorem c10_raw_node_env_decides (env : ResolvedConfig) (raw : RawEnv)
    (habs : env.NEXT_PUBLIC_API_URL = none) :
    (raw "NODE_ENV" ≠ some "production" →
      getBaseURL env raw = Except.ok "http://localhost:3000/api") ∧
    (getBaseURL env raw = Except.error prodErrorMsg ↔
      raw "NODE_ENV" = some "production") := by
  by_cases hp : raw "NODE_ENV" = some "production" <;>
    simp [getBaseURL, truthy, habs, hp]

theorem c10_witness :
    getBaseURL cfgProdResolved rawTest = Except.ok "http://localhost:3000/api" :=
  (c10_raw_node_env_decides cfgProdResolved rawTest rfl).1 (by decide)

theorem mem_violations_nodeEnv (raw : RawEnv) :
    "NODE_ENV" ∈ violations raw ↔ nodeEnvViolated raw = true := by
  unfold violations
  cases h1 : nodeEnvViolated raw <;> cases h2 : dbUrlViolated raw <;>
    cases h3 : secretViolated raw <;> cases h4 : apiUrlViolated raw <;> simp

theorem mem_violations_dbUrl (raw : RawEnv) :
    "DATABASE_URL" ∈ violations raw ↔ dbUrlViolated raw = true := by
  unfold violations
  cases h1 : nodeEnvViolated raw <;> cases h2 : dbUrlViolated raw <;>
    cases h3 : secretViolated raw <;> cases h4 : apiUrlViolated raw <;> simp

theorem mem_violations_secret (raw : RawEnv) :
    "API_SECRET_KEY" ∈ violations raw ↔ secretViolated raw = true := by
  unfold violations
  cases h1 : nodeEnvViolated raw <;> cases h2 : dbUrlViolated raw <;>
    cases h3 : secretViolated raw <;> cases h4 : apiUrlViolated raw <;> simp

theorem mem_violations_apiUrl (raw : RawEnv) :
    "NEXT_PUBLIC_API_URL" ∈ violations raw ↔ apiUrlViolated raw = true := by
  unfold violations
  cases h1 : nodeEnvViolated raw <;> cases h2 : dbUrlViolated raw <;>
    cases h3 : secretViolated raw <;> cases h4 : apiUrlViolated raw <;> simp

theorem mem_violations_appName (raw : RawEnv) :
    "NEXT_PUBLIC_APP_NAME" ∉ violations raw := by
  unfold violations
  cases h1 : nodeEnvViolated raw <;> cases h2 : dbUrlViolated raw <;>
    cases h3 : secretViolated raw <;> cases h4 : apiUrlViolated raw <;> simp

/-- C2: with skipValidation true the loader returns a ResolvedConfig
without failing, raw values passed through (after empty-string handling)
and defaults applied where absent; in particular with an empty raw
environment it returns NEXT_PUBLIC_APP_NAME = "NES App". -/
theorem c2_skip_validation_best_effort (raw : RawEnv) :
    (∃ c : ResolvedConfig, load raw true = Except.ok c ∧
      c.NODE_ENV = (emptyAsUndef (raw "NODE_ENV")).getD "development" ∧
      c.DATABASE_URL = emptyAsUndef (raw "DATABASE_URL") ∧
      c.API_SECRET_KEY = emptyAsUndef (raw "API_SECRET_KEY") ∧
      c.NEXT_PUBLIC_API_URL = emptyAsUndef (raw "NEXT_PUBLIC_API_URL") ∧
      c.NEXT_PUBLIC_APP_NAME =
        (emptyAsUndef (raw "NEXT_PUBLIC_APP_NAME")).getD "NES App") ∧
    (∃ c : ResolvedConfig, load rawEmpty true = Except.ok c ∧
      c.NEXT_PUBLIC_APP_NAME = "NES App") :=
  ⟨⟨resolve raw, rfl, rfl, rfl, rfl, rfl, rfl⟩,
   ⟨resolve rawEmpty, rfl, rfl⟩⟩

/-- C3: a declared variable whose raw value is the empty string is treated
identically to an absent one: loading gives the same outcome as with the
variable missing, and the variable is never among the violated fields (in
particular NEXT_PUBLIC_API_URL = "" is not an invalid-URL failure). -/
theorem c3_empty_string_as_absent (raw : RawEnv) (skip : Bool) (name : String)
    (hmem : name ∈ declaredNames) (hval : raw name = some "") :
    load raw skip = load (fun k => if k = name then none else raw k) skip ∧
    name ∉ violations raw := by
  constructor
  · apply load_congr
    intro k _
    by_cases hkn : k = name
    · subst hkn
      simp [hval, emptyAsUndef]
    · simp [hkn]
  · have hmem5 : name = "NODE_ENV" ∨ name = "DATABASE_URL" ∨
        name = "API_SECRET_KEY" ∨ name = "NEXT_PUBLIC_API_URL" ∨
        name = "NEXT_PUBLIC_APP_NAME" := by
      simpa [declaredNames] using hmem
    rcases hmem5 with rfl | rfl | rfl | rfl | rfl
    · intro hc
      have := (mem_violations_nodeEnv raw).mp hc
      simp [nodeEnvViolated, runtimeEnv, hval, emptyAsUndef] at this
    · intro hc
      have := (mem_violations_dbUrl raw).mp hc
      simp [dbUrlViolated, runtimeEnv, hval, emptyAsUndef] at this
    · intro hc
      have := (mem_violations_secret raw).mp hc
      simp [secretViolated, runtimeEnv, hval, emptyAsUndef] at this
    · intro hc
      have := (mem_violations_apiUrl raw).mp hc
      simp [apiUrlViolated, runtimeEnv, hval, emptyAsUndef] at this
    · exact mem_violations_appName raw

theorem c3_witness :
    load rawBlankApi false =
      load (fun k => if k = "NEXT_PUBLIC_API_URL" then none
                     else rawBlankApi k) false :=
  (c3_empty_string_as_absent rawBlankApi false "NEXT_PUBLIC_API_URL"
    (by decide) (by decide)).1

/-- C6: with skipValidation false and at least one rule violation, load
fails with one error listing exactly the violated fields: a field name is
in the error list if and only if its rule is violated, so a bad NODE_ENV is
reported together with every other violated field. -/
theorem c6_all_violations_reported (raw : RawEnv)
    (h : nodeEnvViolated raw = true ∨ dbUrlViolated raw = true ∨
         secretViolated raw = true ∨ apiUrlViolated raw = true) :
    load raw false = Except.error (violations raw) ∧
    (nodeEnvViolated raw = true ↔ "NODE_ENV" ∈ violations raw) ∧
    (dbUrlViolated raw = true ↔ "DATABASE_URL" ∈ violations raw) ∧
    (secretViolated raw = true ↔ "API_SECRET_KEY" ∈ violations raw) ∧
    (apiUrlViolated raw = true ↔ "NEXT_PUBLIC_API_URL" ∈ violations raw) := by
  have hne : violations raw ≠ [] := by
    intro hnil
    rcases h with h | h | h | h
    · have := (mem_violations_nodeEnv raw).mpr h
      rw [hnil] at this; simp at this
    · have := (mem_violations_dbUrl raw).mpr h
      rw [hnil] at this; simp at this
    · have := (mem_violations_secret raw).mpr h
      rw [hnil] at this; simp at this
    · have := (mem_violations_apiUrl raw).mpr h
      rw [hnil] at this; simp at this
  have hload : load raw false =
      if violations raw = [] then Except.ok (resolve raw)
      else Except.error (violations raw) := rfl
  exact ⟨by rw [hload, if_neg hne],
    (mem_violations_nodeEnv raw).symm, (mem_violations_dbUrl raw).symm,
    (mem_violations_secret raw).symm, (mem_violations_apiUrl raw).symm⟩

theorem c6_witness :
    load rawBad false = Except.error (violations rawBad) ∧
    "NODE_ENV" ∈ violations rawBad ∧ "DATABASE_URL" ∈ violations rawBad := by
  have h := c6_all_violations_reported rawBad (Or.inl (by decide))
  exact ⟨h.1, h.2.1.mp (by decide), h.2.2.1.mp (by decide)⟩

/-- C7: two raw environments that agree on the five declared names produce
the same loader outcome, whatever extra unknown names either carries:
unknown entries are ignored, not rejected, and do not influence the
ResolvedConfig. -/
theorem c7_unknown_names_ignored (raw1 raw2 : RawEnv) (skip : Bool)
    (h : ∀ k ∈ declaredNames, raw1 k = raw2 k) :
    load raw1 skip = load raw2 skip :=
  load_congr raw1 raw2 skip (fun k hk => by rw [h k hk])

theorem c7_witness : load rawTest false = load rawExtra false :=
  c7_unknown_names_ignored rawTest rawExtra false (by decide)

/-- C8: the loader is deterministic: two calls with the identical raw input
and identical skip flag yield field-for-field equal ResolvedConfig
values. -/
theorem c8_load_deterministic (raw : RawEnv) (skip : Bool)
    (a b : ResolvedConfig)
    (h1 : load raw skip = Except.ok a) (h2 : load raw skip = Except.ok b) :
    a.NODE_ENV = b.NODE_ENV ∧ a.DATABASE_URL = b.DATABASE_URL ∧
    a.API_SECRET_KEY = b.API_SECRET_KEY ∧
    a.NEXT_PUBLIC_API_URL = b.NEXT_PUBLIC_API_URL ∧
    a.NEXT_PUBLIC_APP_NAME = b.NEXT_PUBLIC_APP_NAME := by
  rw [h1] at h2
  injection h2 with h
  subst h
  exact ⟨rfl, rfl, rfl, rfl, rfl⟩

theorem c8_witness :
    (resolve rawEmpty).NODE_ENV = (resolve rawEmpty).NODE_ENV ∧
    (resolve rawEmpty).DATABASE_URL = (resolve rawEmpty).DATABASE_URL ∧
    (resolve rawEmpty).API_SECRET_KEY = (resolve rawEmpty).API_SECRET_KEY ∧
    (resolve rawEmpty).NEXT_PUBLIC_API_URL =
      (resolve rawEmpty).NEXT_PUBLIC_API_URL ∧
    (resolve rawEmpty).NEXT_PUBLIC_APP_NAME =
      (resolve rawEmpty).NEXT_PUBLIC_APP_NAME :=
  c8_load_deterministic rawEmpty true (resolve rawEmpty) (resolve rawEmpty)
    rfl rfl

theorem requestInterceptor_cases (w : Bool) (store : String → Option String)
    (cfg : RequestConfig) :
    requestInterceptor w store cfg = cfg ∨
    ∃ t, store "auth_token" = some t ∧ t ≠ "" ∧
      requestInterceptor w store cfg =
        { cfg with
            headers := setHeader cfg.headers "Authorization" ("Bearer " ++ t) } := by
  unfold requestInterceptor
  by_cases hw : w = true
  · rw [if_pos hw]
    cases hst : store "auth_token" with
    | none => exact Or.inl rfl
    | some t =>
      by_cases ht : t ≠ ""
      · exact Or.inr ⟨t, rfl, ht, by dsimp only; rw [if_pos ht]⟩
      · exact Or.inl (by dsimp only; rw [if_neg ht])
  · rw [if_neg hw]
    exact Or.inl rfl

/-- C4: the request interceptor sets the Authorization header to
"Bearer <token>" exactly when the token store is available and holds a
non-empty value under "auth_token"; when the store is unavailable or the
token is absent or empty, the request is returned unchanged with no
Authorization header added. -/
theorem c4_auth_header_injection (w : Bool) (store : String → Option String)
    (cfg : RequestConfig) :
    (∀ t, w = true → store "auth_token" = some t → t ≠ "" →
      getHeader (requestInterceptor w store cfg).headers "Authorization" =
        some ("Bearer " ++ t)) ∧
    ((w = false ∨ store "auth_token" = none ∨ store "auth_token" = some "") →
      requestInterceptor w store cfg = cfg) := by
  constructor
  · intro t hw hst hne
    subst hw
    unfold requestInterceptor
    rw [if_pos rfl, hst]
    dsimp only
    rw [if_pos hne]
    exact getHeader_setHeader_self cfg.headers "Authorization" ("Bearer " ++ t)
  · intro h
    unfold requestInterceptor
    rcases h with hw | hst | hst
    · rw [if_neg (by simp [hw])]
    · by_cases hw : w = true
      · rw [if_pos hw, hst]
      · rw [if_neg hw]
    · by_cases hw : w = true
      · rw [if_pos hw, hst]
        dsimp only
        rw [if_neg (by simp)]
      · rw [if_neg hw]

theorem c4_witness :
    getHeader (requestInterceptor true store0 cfg0).headers "Authorization" =
      some ("Bearer " ++ "abc123") ∧
    requestInterceptor true storeEmpty cfg0 = cfg0 :=
  ⟨(c4_auth_header_injection true store0 cfg0).1 "abc123" rfl
      (by decide) (by decide),
   (c4_auth_header_injection true storeEmpty cfg0).2 (Or.inr (Or.inl rfl))⟩

/-- C5: every failure passing through the response interceptor is logged and
then re-propagated to the caller as a rejection carrying the very same
error; a status-404 failure is logged under the "Not Found" category while
the rejected result still exposes status 404. -/
theorem c5_response_error_propagated (e : AxiosErrorModel) :
    (responseErrorInterceptor e).2 = Except.error e ∧
    (e.status = some 404 →
      (responseErrorInterceptor e).1 = LogCategory.notFound ∧
      ∀ e2, (responseErrorInterceptor e).2 = Except.error e2 →
        e2.status = some 404) := by
  refine ⟨rfl, fun h => ⟨?_, ?_⟩⟩
  · show classifyStatus e.status = LogCategory.notFound
    rw [h]
    decide
  · intro e2 he2
    have he : Except.error e = Except.error e2 := he2
    injection he with h3
    rw [← h3]
    exact h

theorem c5_witness :
    (responseErrorInterceptor err404).1 = LogCategory.notFound ∧
    (responseErrorInterceptor err404).2 = Except.error err404 :=
  ⟨((c5_response_error_propagated err404).2 rfl).1,
   (c5_response_error_propagated err404).1⟩

/-- C9: the request interceptor mutates at most the Authorization header:
the URL, method, body, timeout and every other header of the outgoing
request are returned exactly as received, on both the token-present and
token-absent paths. -/
theorem c9_request_interceptor_frame (w : Bool)
    (store : String → Option String) (cfg : RequestConfig) :
    (requestInterceptor w store cfg).url = cfg.url ∧
    (requestInterceptor w store cfg).method = cfg.method ∧
    (requestInterceptor w store cfg).body = cfg.body ∧
    (requestInterceptor w store cfg).timeout = cfg.timeout ∧
    ∀ k, k ≠ "Authorization" →
      getHeader (requestInterceptor w store cfg).headers k =
        getHeader cfg.headers k := by
  rcases requestInterceptor_cases w store cfg with h | ⟨t, _, _, h⟩
  · rw [h]
    exact ⟨rfl, rfl, rfl, rfl, fun k _ => rfl⟩
  · rw [h]
    exact ⟨rfl, rfl, rfl, rfl, fun k hk =>
      getHeader_setHeader_ne cfg.headers "Authorization" ("Bearer " ++ t) k hk⟩

theorem c9_witness :
    (requestInterceptor true store0 cfg0).url = cfg0.url ∧
    getHeader (requestInterceptor true store0 cfg0).headers "Content-Type" =
      getHeader cfg0.headers "Content-Type" :=
  ⟨(c9_request_interceptor_frame true store0 cfg0).1,
   (c9_request_interceptor_frame true store0 cfg0).2.2.2.2 "Content-Type"
     (by decide)⟩
